import Mathlib

/-!
Shallow embedding of the notebook cell execution runtime:
`jupyter-notebook-service.ts` (document model, output formatting),
`python-execution-service.ts` (python backend with pyodide / delegated /
simulated tiers) and the multi-language execution service (dispatcher,
per-language counters, SQL / Rust / R / NAVΛ / JavaScript backends,
tabular formatting).  JavaScript strings become `String`, numbers become
`Nat`/`Int`, `undefined`-able fields become `Option`, the `string | string[]`
union becomes a sum type, and the external world (Tauri availability,
remote `invoke` responses, pyodide, `eval`, `fetch`) is an explicit
environment record, with `none` modelling a thrown call.
-/

/-- JavaScript `s || d` for strings: the empty string is falsy. -/
def jsOrS (s d : String) : String := if s = "" then d else s

/-- JavaScript `o || d` where `o` may be `undefined`. -/
def jsOrOptS (o : Option String) (d : String) : String :=
  match o with
  | some s => jsOrS s d
  | none => d

/-- JavaScript `o || d` for numbers: `0` and `undefined` are falsy
(`options.timeout || 30000`). -/
def jsOrNat (o : Option Nat) (d : Nat) : Nat :=
  match o with
  | some n => if n = 0 then d else n
  | none => d

/-- Truthiness filter for an optional string field (`if (x)` in JS:
`undefined` and `""` are falsy). -/
def jsTruthyOpt (o : Option String) : Option String :=
  match o with
  | some s => if s = "" then none else some s
  | none => none

/-- Rendering `String(error)` for a thrown `Error` object with message `msg`. -/
def jsErrString (msg : String) : String := "Error: " ++ msg

/-- JavaScript `parts.join('')`: concatenation with no separator. -/
def jsJoinEmpty (parts : List String) : String := ⟨(parts.map String.data).flatten⟩

/-- Split a character list at every occurrence of `c`
(the semantics of JavaScript `s.split(c)` on the character level). -/
def splitCh (c : Char) : List Char → List (List Char)
  | [] => [[]]
  | x :: xs =>
    match splitCh c xs with
    | g :: gs => if x = c then [] :: g :: gs else (x :: g) :: gs
    | [] => [[x]]

/-- JavaScript `s.split('\n')`. -/
def jsSplitNl (s : String) : List String := (splitCh '\n' s.data).map fun l => ⟨l⟩

/-- Does `t` occur as a contiguous substring of `s`? (JS `s.includes(t)`.) -/
def containsSub (s t : List Char) : Bool :=
  match s with
  | [] => t.isEmpty
  | _ :: rest => t.isPrefixOf s || containsSub rest t

/-- JS `code.includes(t)`. -/
def jsIncludes (s t : String) : Bool := containsSub s.data t.data

/-! ## Output model (`jupyter-notebook-service.ts`, `NotebookOutput` etc.) -/

/-- A value that the persisted format allows as `string | string[]`. -/
inductive StrOrArr where
  | str (s : String)
  | arr (l : List String)
deriving DecidableEq, Repr

/-- `Array.isArray(v) ? v.join('') : (v || '')`. -/
def StrOrArr.render : StrOrArr → String
  | .str s => s
  | .arr l => jsJoinEmpty l

/-- The `{ename, evalue, traceback}` error triple. -/
structure ErrorInfo where
  ename : String
  evalue : String
  traceback : List String
deriving DecidableEq, Repr

/-- The `data` mapping of a result output, restricted to the MIME keys the
source ever reads or writes.  `application/json` holds the raw JSON text of
the (otherwise opaque) structured value. -/
structure OutputData where
  textPlain : Option StrOrArr := none
  textHtml : Option StrOrArr := none
  imagePng : Option String := none
  imageJpeg : Option String := none
  imageSvg : Option StrOrArr := none
  appJson : Option String := none
deriving DecidableEq, Repr

/-- `NotebookOutput`: the tagged variant over the four `output_type` kinds. -/
inductive NotebookOutput where
  | stream (name : String) (text : StrOrArr)
  | executeResult (execution_count : Option Nat) (data : OutputData)
  | displayData (data : OutputData)
  | error (e : ErrorInfo)
deriving DecidableEq, Repr

/-- Is this an `error`-kind output? -/
def NotebookOutput.isErrorOutput : NotebookOutput → Bool
  | .error _ => true
  | _ => false

/-- `CellExecutionResult`. -/
structure CellExecutionResult where
  success : Bool
  outputs : List NotebookOutput
  execution_count : Nat
  error : Option ErrorInfo := none
deriving DecidableEq, Repr

/-- Does the outputs list contain at least one `error`-kind output? -/
def CellExecutionResult.hasErrorOutput (r : CellExecutionResult) : Bool :=
  r.outputs.any NotebookOutput.isErrorOutput

/-! ## Notebook document model (`jupyter-notebook-service.ts`) -/

/-- Cell metadata, restricted to the one key the service inspects
(`cell.metadata?.language`); all other keys are never read. -/
structure CellMetadata where
  language : Option String := none
deriving DecidableEq, Repr

/-- `metadata.kernelspec`. -/
structure NbKernelspec where
  display_name : String
  language : String
  name : String
deriving DecidableEq, Repr

/-- `metadata.language_info`. -/
structure NbLanguageInfo where
  name : String
  version : String
  mimetype : Option String := none
  file_extension : Option String := none
deriving DecidableEq, Repr

/-- Notebook-level metadata. -/
structure NotebookMetadata where
  kernelspec : Option NbKernelspec := none
  language_info : Option NbLanguageInfo := none
deriving DecidableEq, Repr

/-- A persisted notebook cell (`NotebookCell` in the source): `source` may be
a single string or a list of line fragments, and may be absent in raw input. -/
structure NbCell where
  cell_type : String
  execution_count : Option Nat := none
  id : Option String := none
  metadata : CellMetadata := {}
  source : Option (String ⊕ List String) := none
  outputs : Option (List NotebookOutput) := none
deriving DecidableEq, Repr

/-- A parsed notebook (`JupyterNotebook`). -/
structure JupyterNotebook where
  cells : List NbCell
  metadata : NotebookMetadata
  nbformat : Nat
  nbformat_minor : Nat
deriving DecidableEq, Repr

/-- The raw top-level `cells` field before validation: absent, present but
not an array, or an array of cells. -/
inductive CellsField where
  | absent
  | notArray
  | present (cells : List NbCell)
deriving DecidableEq, Repr

/-- The JSON object handed to `parseNotebook` after `JSON.parse`, with the
fields the validator reads (`nbformat` is typed `number` in the source). -/
structure RawNotebook where
  cells : CellsField
  metadata : NotebookMetadata := {}
  nbformat : Option Int := none
  nbformat_minor : Option Int := none
deriving Repr

/-- `normalizeSource(source)`: `Array.isArray(source) ? source.join('') :
(source || '')`. -/
def normalizeSource : String ⊕ List String → String
  | .inr fragments => jsJoinEmpty fragments
  | .inl s => jsOrS s ""

/-- The inline normalization used by `parseNotebook` and `notebookToCells`,
where `cell.source` may also be `undefined` (`cell.source || ''`). -/
def normalizeRawSource : Option (String ⊕ List String) → String
  | some (.inr fragments) => jsJoinEmpty fragments
  | some (.inl s) => jsOrS s ""
  | none => ""

/-- `parseNotebook(jsonContent)` after `JSON.parse` succeeded: validate the
`cells` array, then the `nbformat` version, then normalize every cell source;
thrown validation errors are re-wrapped by the outer catch with the
`Failed to parse notebook: ` prefix. -/
def parseNotebook (nb : RawNotebook) : Except String JupyterNotebook :=
  match nb.cells with
  | .present cells =>
    match nb.nbformat with
    | none => .error "Failed to parse notebook: Unsupported notebook format version"
    | some n =>
      if n = 0 ∨ n < 4 then
        .error "Failed to parse notebook: Unsupported notebook format version"
      else
        .ok { cells := cells.map fun cell => { cell with source := some (.inl (normalizeRawSource cell.source)) },
              metadata := nb.metadata,
              nbformat := n.toNat,
              nbformat_minor := (nb.nbformat_minor.getD 0).toNat }
  | _ => .error "Failed to parse notebook: Invalid notebook format: missing cells array"

/-- The in-memory cell kind (`'code' | 'markdown'`). -/
inductive CellKind where
  | code
  | markdown
deriving DecidableEq, Repr

/-- The in-memory cell shape produced by `notebookToCells` and consumed by
`cellsToNotebook`. -/
structure InternalCell where
  id : String
  type : CellKind
  language : String
  content : String
  executionCount : Option Nat
  outputs : List NotebookOutput
  metadata : CellMetadata
deriving DecidableEq, Repr

/-- `detectLanguage(cell, notebook)`: cell metadata, then notebook
kernelspec, then `language_info`, then the per-kind default; any empty
string at a stage is falsy and falls through. -/
def detectLanguage (cell : NbCell) (nb : JupyterNotebook) : String :=
  match jsTruthyOpt cell.metadata.language with
  | some l => l
  | none =>
    match jsTruthyOpt (nb.metadata.kernelspec.map NbKernelspec.language) with
    | some l => l
    | none =>
      match jsTruthyOpt (nb.metadata.language_info.map NbLanguageInfo.name) with
      | some l => l
      | none => if cell.cell_type = "code" then "python" else "markdown"

/-- The per-cell body of `notebookToCells`: `ic` is the `(index, cell)` pair
produced by `map`'s index argument. -/
def internalCellOf (nb : JupyterNotebook) (ic : Nat × NbCell) : InternalCell :=
  { id := match ic.2.id with
          | some i => jsOrS i ("cell-" ++ toString ic.1)
          | none => "cell-" ++ toString ic.1
    type := if ic.2.cell_type = "code" then .code else .markdown
    language := detectLanguage ic.2 nb
    content := normalizeRawSource ic.2.source
    executionCount := ic.2.execution_count
    outputs := ic.2.outputs.getD []
    metadata := ic.2.metadata }

/-- `notebookToCells(notebook)`: one internal cell per persisted cell,
with positional fallback ids and normalized sources. -/
def notebookToCells (nb : JupyterNotebook) : List InternalCell :=
  nb.cells.enum.map (internalCellOf nb)

/-- The metadata block `cellsToNotebook` synthesizes when the caller passes
none. -/
def defaultNotebookMetadata : NotebookMetadata :=
  { kernelspec := some { display_name := "Python 3", language := "python", name := "python3" },
    language_info := some { name := "python", version := "3.0.0" } }

/-- The per-cell body of `cellsToNotebook`: source is persisted as
`cell.content.split('\n')`, outputs are kept for code cells (a list value is
always truthy in JS, so an empty list is kept too). -/
def nbCellOf (cell : InternalCell) : NbCell :=
  { cell_type := if cell.type = .code then "code" else "markdown"
    execution_count := if cell.type = .code then cell.executionCount else none
    id := some cell.id
    metadata := cell.metadata
    source := some (.inr (jsSplitNl cell.content))
    outputs := if cell.type = .code then some cell.outputs else none }

/-- `cellsToNotebook(cells, metadata?)` (continued): assemble the notebook
with the caller's metadata or the synthesized default. -/
def cellsToNotebook (cells : List InternalCell) (metadata : Option NotebookMetadata) : JupyterNotebook :=
  { cells := cells.map nbCellOf
    metadata := metadata.getD defaultNotebookMetadata
    nbformat := 4
    nbformat_minor := 4 }

/-! ## Rendering-selection (`formatOutput`) -/

/-- The `type` tag of a formatted output. -/
inductive FormattedType where
  | text
  | html
  | image
  | error
  | stream
deriving DecidableEq, Repr

/-- The return shape of `formatOutput`. -/
structure Formatted where
  type : FormattedType
  content : String
  mimeType : Option String := none
deriving DecidableEq, Repr

/-- Truthiness of a `string | string[]` data entry: an empty string is
falsy, but a list (even an empty one) is an object and always truthy.
Returns the rendered content when truthy. -/
def jsTruthySA : Option StrOrArr → Option String
  | some (.str s) => if s = "" then none else some s
  | some (.arr l) => some (jsJoinEmpty l)
  | none => none

/-- The `output.data` branch of `formatOutput`: the fixed preference chain
png, jpeg, svg, html, plain, else the empty-text fallback. -/
def formatData (data : OutputData) : Formatted :=
  match jsTruthyOpt data.imagePng with
  | some png => { type := .image, content := png, mimeType := some "image/png" }
  | none =>
    match jsTruthyOpt data.imageJpeg with
    | some jpeg => { type := .image, content := jpeg, mimeType := some "image/jpeg" }
    | none =>
      match jsTruthySA data.imageSvg with
      | some svg => { type := .image, content := svg, mimeType := some "image/svg+xml" }
      | none =>
        match jsTruthySA data.textHtml with
        | some html => { type := .html, content := html }
        | none =>
          match jsTruthySA data.textPlain with
          | some plain => { type := .text, content := plain }
          | none => { type := .text, content := "" }

/-- `formatOutput(output)`. -/
def formatOutput : NotebookOutput → Formatted
  | .error e =>
    { type := .error,
      content := String.intercalate "\n" (jsOrS e.ename "Error" :: e.evalue :: e.traceback) }
  | .stream _ text => { type := .stream, content := text.render }
  | .executeResult _ data => formatData data
  | .displayData data => formatData data

/-! ## Tabular-result formatting (`formatSQLTable`, `formatSQLTableHTML`) -/

/-- A SQL result row: an ordered mapping from column name to rendered
value (`String(row[key] || '')` makes every value a string, with missing
and falsy values rendered as the empty string). -/
def SqlRow := List (String × String)
deriving instance DecidableEq, Repr for SqlRow

/-- `String(row[key] || '')`. -/
def rowGet (row : SqlRow) (key : String) : String :=
  match row.find? fun kv => kv.1 = key with
  | some kv => kv.2
  | none => ""

/-- `Object.keys(rows[0])`. -/
def sqlKeys (rows : List SqlRow) : List String := (rows.headD []).map Prod.fst

/-- The header line `keys.join(' | ')`. -/
def sqlHeaderLine (rows : List SqlRow) : String :=
  String.intercalate " | " (sqlKeys rows)

/-- The separator line. -/
def sqlSeparatorLine (rows : List SqlRow) : String :=
  String.intercalate " | " ((sqlKeys rows).map fun _ => "---")

/-- The displayed data lines: the first 100 rows, one line each. -/
def sqlDataLines (rows : List SqlRow) : List String :=
  (rows.take 100).map fun row =>
    String.intercalate " | " ((sqlKeys rows).map fun key => rowGet row key)

/-- The truncation trailer appended when more than 100 rows were returned. -/
def sqlTrailer (rows : List SqlRow) : String :=
  if rows.length > 100 then
    "\n... (" ++ toString (rows.length - 100) ++ " more rows)"
  else ""

/-- `formatSQLTable(rows)`. -/
def formatSQLTable (rows : List SqlRow) : String :=
  if rows.length = 0 then "No rows returned"
  else
    String.intercalate "\n" (sqlHeaderLine rows :: sqlSeparatorLine rows :: sqlDataLines rows)
      ++ sqlTrailer rows

/-- `formatSQLTableHTML(rows)`. -/
def formatSQLTableHTML (rows : List SqlRow) : String :=
  if rows.length = 0 then "<div>No rows returned</div>"
  else
    let keys := sqlKeys rows
    let headerRow := "<tr>" ++ jsJoinEmpty (keys.map fun k => "<th>" ++ k ++ "</th>") ++ "</tr>"
    let dataRows := jsJoinEmpty ((rows.take 100).map fun row =>
      "<tr>" ++ jsJoinEmpty (keys.map fun k => "<td>" ++ rowGet row k ++ "</td>") ++ "</tr>")
    "\n      <table style=\"border-collapse: collapse; width: 100%; font-family: monospace; font-size: 12px;\">\n        <thead>"
      ++ headerRow ++ "</thead>\n        <tbody>" ++ dataRows ++ "</tbody>\n      </table>\n      "
      ++ (if rows.length > 100 then
            "<div>... (" ++ toString (rows.length - 100) ++ " more rows)</div>" else "")
      ++ "\n    "

/-! ## Execution options and external environment -/

/-- `ExecutionOptions`. -/
structure ExecutionOptions where
  timeout : Option Nat := none
  captureOutput : Option Bool := none
  workingDirectory : Option String := none
  environment : List (String × String) := []
  compileOnly : Option Bool := none

/-- JS truthiness of an optional boolean option (`if (options.compileOnly)`). -/
def jsTruthyBool (o : Option Bool) : Bool := o.getD false

/-- A `{success, output?, error?}` response from a Tauri `invoke` command. -/
structure TauriCmdResult where
  success : Bool
  output : Option String := none
  error : Option String := none

/-- A `{success, rows?, error?}` response from the `execute_sql` command. -/
structure SqlCmdResult where
  success : Bool
  rows : Option (List SqlRow) := none
  error : Option String := none

/-- What `JSON.parse` produced for a NAVΛ `run_live_preview` reply when it
succeeded: `strVal` is set when the parsed value is a string, `pretty` is
`JSON.stringify(parsedResult, null, 2)`. -/
structure NavParsed where
  strVal : Option String := none
  pretty : String := ""

/-- The raw NAVΛ reply string and its optional JSON parse. -/
structure NavOutcome where
  raw : String
  parsed : Option NavParsed := none

/-- The outcome of running user code in pyodide: either captured streams, an
optional figure value and an optional final-expression repr, or a thrown
execution error with the captured stderr, the best-effort Python traceback
text (`none` when retrieving it itself threw), the JS error message and the
optional JS stack. -/
inductive PyRunOutcome where
  | ok (stdout stderr : String) (figure : Option String) (resultRepr : Option String)
  | err (stderrContent : String) (pyTraceback : Option String)
      (jsMessage : String) (jsStack : Option String)

/-- A thrown JavaScript exception (from `eval`). -/
structure JsException where
  message : String
  stack : String

/-- The external world as seen by the runtime, per call: whether the Tauri
host is present, how each remote command answers (with `none` modelling a
thrown/rejected call), whether pyodide can be initialized, how pyodide runs
the given code, and what `eval` does.  Delegated python results come back
as whole `CellExecutionResult` values because the source casts the reply
unchecked. -/
structure Env where
  tauriAvailable : Bool
  pyodideInit : Bool
  pyRun : String → PyRunOutcome
  pyTauriImportOk : Bool
  invokePython : String → Nat → Option CellExecutionResult
  fetchPython : String → Nat → Option CellExecutionResult
  invokeSQL : String → Nat → Option SqlCmdResult
  invokeRust : String → Nat → Option TauriCmdResult
  invokeCompileRust : String → Option TauriCmdResult
  invokeR : String → Nat → Option TauriCmdResult
  navPreview : String → Option NavOutcome
  evalJS : String → Except JsException (List String)

/-- The mutable process state: the dispatcher's per-language counters
(`Map.get(...) || 0` on a string key) plus the python service's own counter
and pyodide handle. -/
structure ExecState where
  counts : String → Nat
  pyCount : Nat
  pyodide : Bool

/-- A fresh service (`new MultiLanguageExecutionService()` next to a fresh
`PythonExecutionService`). -/
def initState : ExecState :=
  { counts := fun _ => 0, pyCount := 0, pyodide := false }

/-- `this.executionCounts.set(language, count)`. -/
def setCount (f : String → Nat) (key : String) (v : Nat) : String → Nat :=
  fun x => if x = key then v else f x

/-! ## Python execution service (`python-execution-service.ts`) -/

/-- `/print\s*\([^)]+\)/` match attempt at the head of the list: returns the
matched characters and the remaining suffix. -/
def tryPrintMatch (cs : List Char) : Option (List Char × List Char) :=
  match cs with
  | 'p' :: 'r' :: 'i' :: 'n' :: 't' :: rest0 =>
    let ws := rest0.takeWhile Char.isWhitespace
    let rest1 := rest0.drop ws.length
    match rest1 with
    | '(' :: rest2 =>
      let inner := rest2.takeWhile fun c => c ≠ ')'
      match rest2.drop inner.length with
      | ')' :: rest3 =>
        if inner.isEmpty then none
        else some (['p', 'r', 'i', 'n', 't'] ++ ws ++ '(' :: inner ++ [')'], rest3)
      | _ => none
    | _ => none
  | _ => none

/-- Global scan for `/print\s*\([^)]+\)/g`, fuelled by the input length. -/
def findPrintAux : Nat → List Char → List (List Char)
  | 0, _ => []
  | _ + 1, [] => []
  | fuel + 1, c :: rest =>
    match tryPrintMatch (c :: rest) with
    | some m => m.1 :: findPrintAux fuel m.2
    | none => findPrintAux fuel rest

/-- `code.match(/print\s*\([^)]+\)/g)`. -/
def findPrintMatches (code : String) : List String :=
  (findPrintAux code.data.length code.data).map fun l => ⟨l⟩

/-- `match.replace(/print\s*\(['"]?([^'"]+)['"]?\)/, '$1')` applied to a
full match: strip `print`, whitespace and parentheses, then an optional
surrounding quote pair; when the inner text does not fit the pattern
(quotes in the middle, or nothing left) the match is returned unchanged. -/
def printReplace (m : String) : String :=
  let afterPrint := (m.data.drop 5).dropWhile Char.isWhitespace
  let inner := (afterPrint.drop 1).takeWhile fun c => c ≠ ')'
  let isQuote : Char → Bool := fun c => c = '\'' || c = '"'
  let r1 := if h : inner ≠ [] then if isQuote (inner.head h) then inner.tail else inner else inner
  let body := r1.takeWhile fun c => !(isQuote c)
  let rest := r1.drop body.length
  if body ≠ [] ∧ (rest = [] ∨ (rest.length = 1 ∧ rest.all isQuote)) then ⟨body⟩ else m

/-- `simulateExecution(code)` in the python service: echo print statements,
fake a figure on matplotlib imports, otherwise a canned `execute_result`. -/
def pySimulateExecution (code : String) (executionCount : Nat) : CellExecutionResult :=
  let printOutputs : List NotebookOutput :=
    (findPrintMatches code).map fun m => .stream "stdout" (.str (printReplace m ++ "\n"))
  let figOutputs : List NotebookOutput :=
    if jsIncludes code "import matplotlib" || jsIncludes code "import plt" then
      [.displayData { textPlain := some (.str "<matplotlib.figure.Figure>") }]
    else []
  let outputs := printOutputs ++ figOutputs
  let outputs :=
    if outputs.isEmpty then
      [.executeResult (some executionCount)
        { textPlain := some (.str "Code executed successfully (simulated)") }]
    else outputs
  { success := true, outputs := outputs, execution_count := executionCount }

/-- `executeWithPyodide` after a successful run: stdout stream, stderr
stream, matplotlib figure as `display_data`, final-expression value as
`execute_result` (skipped when falsy or the string `None`). -/
def pyodideOkResult (executionCount : Nat) (stdout stderr : String)
    (figure resultRepr : Option String) : CellExecutionResult :=
  let outputs : List NotebookOutput :=
    (if stdout ≠ "" then [.stream "stdout" (.str stdout)] else [])
    ++ (if stderr ≠ "" then [.stream "stderr" (.str stderr)] else [])
    ++ (match figure with
        | some f => if f ≠ "" ∧ f ≠ "None" then
            [.displayData { imagePng := some f, textPlain := some (.str "<matplotlib.figure.Figure>") }]
          else []
        | none => [])
    ++ (match resultRepr with
        | some r => if r ≠ "" ∧ r ≠ "None" then
            [.executeResult (some executionCount) { textPlain := some (.str r) }]
          else []
        | none => [])
  { success := true, outputs := outputs, execution_count := executionCount }

/-- `executeWithPyodide` after a thrown run: best-effort Python traceback,
falling back to the JS stack or `String(error)`; the error triple is placed
both in the outputs list and in the `error` field. -/
def pyodideErrResult (executionCount : Nat) (stderrContent : String)
    (pyTraceback : Option String) (jsMessage : String) (jsStack : Option String) :
    CellExecutionResult :=
  let stderrOutputs : List NotebookOutput :=
    if stderrContent ≠ "" then [.stream "stderr" (.str stderrContent)] else []
  let tbAndValue : List String × String :=
    match pyTraceback with
    | some t =>
      if t ≠ "" then
        let tb := t.splitOn "\n"
        (tb, jsOrS (tb.headD "") (jsErrString jsMessage))
      else ([], jsErrString jsMessage)
    | none =>
      (match jsStack with
       | some s => if s ≠ "" then s.splitOn "\n" else [jsErrString jsMessage]
       | none => [jsErrString jsMessage], jsErrString jsMessage)
  let info : ErrorInfo :=
    { ename := "Error", evalue := tbAndValue.2,
      traceback := if tbAndValue.1.length > 0 then tbAndValue.1 else [jsErrString jsMessage] }
  { success := false,
    outputs := stderrOutputs ++ [.error info],
    execution_count := executionCount,
    error := some info }

/-- `pythonExecutionService.executeCode(code, options)`: bump the service's
own counter, prefer pyodide, then the Tauri backend, then the HTTP API, with
simulation as the final tier; delegated results get their
`execution_count` overwritten with the service counter.  Returns the result
together with the new python counter and pyodide handle. -/
def pyExecuteCode (env : Env) (pyCount : Nat) (pyodide : Bool)
    (code : String) (options : ExecutionOptions) : CellExecutionResult × Nat × Bool :=
  let pyCount := pyCount + 1
  if pyodide || env.pyodideInit then
    let r := match env.pyRun code with
      | .ok stdout stderr figure resultRepr =>
        pyodideOkResult pyCount stdout stderr figure resultRepr
      | .err stderrContent pyTraceback jsMessage jsStack =>
        pyodideErrResult pyCount stderrContent pyTraceback jsMessage jsStack
    (r, pyCount, true)
  else if env.tauriAvailable then
    let r :=
      if env.pyTauriImportOk then
        match env.invokePython code (jsOrNat options.timeout 30000) with
        | some result => { result with execution_count := pyCount }
        | none => pySimulateExecution code pyCount
      else pySimulateExecution code pyCount
    (r, pyCount, pyodide)
  else
    let r :=
      match env.fetchPython code (jsOrNat options.timeout 30000) with
      | some result => { result with execution_count := pyCount }
      | none => pySimulateExecution code pyCount
    (r, pyCount, pyodide)

/-! ## Multi-language execution service backends -/

/-- `executeSQLWeb(code, count)`: the simulated SQL tier. -/
def executeSQLWeb (code : String) (count : Nat) : CellExecutionResult :=
  let outputs : List NotebookOutput :=
    if code.trim.toUpper.startsWith "SELECT" then
      [.executeResult (some count)
        { textPlain := some (.str "Query executed successfully\n(Simulated - use backend for real SQL)"),
          textHtml := some (.str "<div style=\"padding: 12px; background: #1e1e1e; border-radius: 4px;\">Query executed successfully<br/>(Simulated - use backend for real SQL)</div>") }]
    else
      [.stream "stdout" (.str "SQL command executed (simulated)\n")]
  { success := true, outputs := outputs, execution_count := count }

/-- `executeSQL(code, options)`: try the Tauri `execute_sql` command; any
throw, a failure reply or a missing rows array falls through (via the inner
catch) to the Web SQL simulation.  The outer catch of the source is
unreachable: everything after the inner try is total. -/
def executeSQL (env : Env) (st : ExecState) (code : String)
    (options : ExecutionOptions) : CellExecutionResult :=
  let count := st.counts "sql" + 1
  let tauriResult : Option CellExecutionResult :=
    if env.tauriAvailable then
      match env.invokeSQL code (jsOrNat options.timeout 30000) with
      | some result =>
        match result.rows with
        | some rows =>
          if result.success then
            some { success := true,
                   outputs := [.executeResult (some count)
                     { textPlain := some (.str (formatSQLTable rows)),
                       textHtml := some (.str (formatSQLTableHTML rows)) }],
                   execution_count := count }
          else none
        | none => none
      | none => none
    else none
  match tauriResult with
  | some r => r
  | none => executeSQLWeb code count

/-- `executeRust(code, options)`: Tauri `compile_rust` when `compileOnly`,
else `execute_rust`; every failure falls through to the simulated reply.
The outer catch of the source is unreachable in the same way. -/
def executeRust (env : Env) (st : ExecState) (code : String)
    (options : ExecutionOptions) : CellExecutionResult :=
  let count := st.counts "rust" + 1
  let tauriResult : Option CellExecutionResult :=
    if env.tauriAvailable then
      if jsTruthyBool options.compileOnly then
        match env.invokeCompileRust code with
        | some result =>
          if result.success then
            some { success := true,
                   outputs := [.stream "stdout" (.str (jsOrOptS result.output "Compilation successful"))],
                   execution_count := count }
          else none
        | none => none
      else
        match env.invokeRust code (jsOrNat options.timeout 30000) with
        | some result =>
          if result.success then
            some { success := true,
                   outputs := [.stream "stdout" (.str (jsOrOptS result.output "Execution successful"))],
                   execution_count := count }
          else none
        | none => none
    else none
  match tauriResult with
  | some r => r
  | none =>
    { success := true,
      outputs := [.stream "stdout" (.str "Rust code compiled and executed (simulated)\nNote: Real Rust execution requires backend or WebAssembly compilation")],
      execution_count := count }

/-- `executeR(code, options)`. -/
def executeR (env : Env) (st : ExecState) (code : String)
    (options : ExecutionOptions) : CellExecutionResult :=
  let count := st.counts "r" + 1
  let tauriResult : Option CellExecutionResult :=
    if env.tauriAvailable then
      match env.invokeR code (jsOrNat options.timeout 30000) with
      | some result =>
        if result.success then
          some { success := true,
                 outputs := [.stream "stdout" (.str (jsOrOptS result.output "R code executed successfully"))],
                 execution_count := count }
        else none
      | none => none
    else none
  match tauriResult with
  | some r => r
  | none =>
    { success := true,
      outputs := [.stream "stdout" (.str "R code executed (simulated)\nNote: Real R execution requires R.js or backend R installation")],
      execution_count := count }

/-- `executeNavLambda(code, options)`: the `run_live_preview` reply is
JSON-parsed when possible (an `execute_result` carrying the JSON and a
plain-text rendering), otherwise streamed as text; a thrown invoke falls
through to the simulated reply.  Reads the `navlambda` counter regardless of
which language tag reached the dispatcher. -/
def executeNavLambda (env : Env) (st : ExecState) (code : String)
    (_options : ExecutionOptions) : CellExecutionResult :=
  let count := st.counts "navlambda" + 1
  let tauriResult : Option CellExecutionResult :=
    if env.tauriAvailable then
      match env.navPreview code with
      | some outcome =>
        match outcome.parsed with
        | some parsed =>
          some { success := true,
                 outputs := [.executeResult (some count)
                   { appJson := some outcome.raw,
                     textPlain := some (.str (parsed.strVal.getD parsed.pretty)) }],
                 execution_count := count }
        | none =>
          some { success := true,
                 outputs := [.stream "stdout" (.str outcome.raw)],
                 execution_count := count }
      | none => none
    else none
  match tauriResult with
  | some r => r
  | none =>
    { success := true,
      outputs := [.stream "stdout" (.str "NAVΛ code executed (simulated)\n→ Navigation field computed\n→ Optimal path calculated\nNote: Real NAVΛ execution requires backend compiler")],
      execution_count := count }

/-- `executeJavaScript(code, language, options)`: run `eval` capturing
console logs; on success either a stdout stream of the logs or a canned
`execute_result`; on a thrown exception a failed result whose error triple
appears only in the outputs list (the `error` field is not set). -/
def executeJavaScript (env : Env) (st : ExecState) (code language : String)
    (_options : ExecutionOptions) : CellExecutionResult :=
  let count := st.counts language + 1
  match env.evalJS code with
  | .ok consoleLogs =>
    let outputs : List NotebookOutput :=
      if consoleLogs.length > 0 then
        [.stream "stdout" (.str (String.intercalate "\n" consoleLogs ++ "\n"))]
      else
        [.executeResult (some count) { textPlain := some (.str "Code executed successfully") }]
    { success := true, outputs := outputs, execution_count := count }
  | .error e =>
    { success := false,
      outputs := [.error { ename := "JavaScriptError",
                           evalue := jsOrS e.message (jsErrString e.message),
                           traceback := [jsOrS e.stack (jsErrString e.message)] }],
      execution_count := count }

/-! ## Execution dispatcher (`executeCode`) -/

/-- The closed set of language tags the `switch` recognizes. -/
def supportedLanguages : List String :=
  ["python", "sql", "rust", "r", "navlambda", "vnc", "javascript", "typescript"]

/-- The `switch (language)` body: route to the backend, or throw
`Unsupported language: ...` from the default branch.  `Except.error` is a
thrown error reaching the dispatcher's catch; the concrete backends never
throw (each handles its own failures internally). -/
def dispatchBackend (env : Env) (st : ExecState) (language code : String)
    (options : ExecutionOptions) : Except String (CellExecutionResult × ExecState) :=
  if language = "python" then
    let r := pyExecuteCode env st.pyCount st.pyodide code options
    .ok (r.1, { st with pyCount := r.2.1, pyodide := r.2.2 })
  else if language = "sql" then .ok (executeSQL env st code options, st)
  else if language = "rust" then .ok (executeRust env st code options, st)
  else if language = "r" then .ok (executeR env st code options, st)
  else if language = "navlambda" ∨ language = "vnc" then
    .ok (executeNavLambda env st code options, st)
  else if language = "javascript" ∨ language = "typescript" then
    .ok (executeJavaScript env st code language options, st)
  else .error ("Unsupported language: " ++ language)

/-- The error triple the dispatcher's catch builds from a thrown message. -/
def execErrorInfo (msg : String) : ErrorInfo :=
  { ename := "ExecutionError", evalue := jsOrS msg (jsErrString msg),
    traceback := [jsErrString msg] }

/-- `executeCode(language, code, options)` on the multi-language service:
bump the per-language counter first, dispatch, and normalize anything thrown
into a failed result carrying an `ExecutionError` triple in both the outputs
list and the `error` field. -/
def executeCode (env : Env) (st : ExecState) (language code : String)
    (options : ExecutionOptions) : CellExecutionResult × ExecState :=
  let count := st.counts language + 1
  let st := { st with counts := setCount st.counts language count }
  match dispatchBackend env st language code options with
  | .ok rs => rs
  | .error msg =>
    ({ success := false,
       outputs := [.error (execErrorInfo msg)],
       execution_count := count,
       error := some (execErrorInfo msg) }, st)

/-- `getExecutionCount(language)`. -/
def getExecutionCount (st : ExecState) (language : String) : Nat :=
  st.counts language

/-- A sequence of `executeCode` calls with one language tag, collecting the
returned results. -/
def execSeq (env : Env) (st : ExecState) (language : String) :
    List (String × ExecutionOptions) → List CellExecutionResult × ExecState
  | [] => ([], st)
  | c :: cs =>
    let r := executeCode env st language c.1 c.2
    let rest := execSeq env r.2 language cs
    (r.1 :: rest.1, rest.2)

/-! ## Helper lemmas and concrete environments -/

theorem setCount_self (f : String → Nat) (k : String) (v : Nat) : setCount f k v k = v := by
  simp [setCount]

theorem setCount_ne (f : String → Nat) (k : String) (v : Nat) (l : String) (h : l ≠ k) :
    setCount f k v l = f l := by
  simp [setCount, h]

/-- An environment with no execution engine reachable: no Tauri host, no
pyodide, no HTTP backend; `eval` runs and produces no console output. -/
def env0 : Env :=
  { tauriAvailable := false, pyodideInit := false,
    pyRun := fun _ => .ok "" "" none none, pyTauriImportOk := false,
    invokePython := fun _ _ => none, fetchPython := fun _ _ => none,
    invokeSQL := fun _ _ => none, invokeRust := fun _ _ => none,
    invokeCompileRust := fun _ => none, invokeR := fun _ _ => none,
    navPreview := fun _ => none, evalJS := fun _ => .ok [] }

/-- Like `env0`, but `eval` throws. -/
def envJsThrow : Env :=
  { env0 with evalJS := fun _ => .error { message := "boom", stack := "Error: boom at cell" } }

/-- Dispatching the `vnc` tag reduces to the NAVΛ backend over the state
whose `vnc` counter was just bumped. -/
theorem executeCode_vnc (env : Env) (st : ExecState) (code : String) (opts : ExecutionOptions) :
    executeCode env st "vnc" code opts =
      (executeNavLambda env { st with counts := setCount st.counts "vnc" (st.counts "vnc" + 1) } code opts,
       { st with counts := setCount st.counts "vnc" (st.counts "vnc" + 1) }) := rfl

/-- Dispatching the `navlambda` tag similarly. -/
theorem executeCode_navlambda (env : Env) (st : ExecState) (code : String) (opts : ExecutionOptions) :
    executeCode env st "navlambda" code opts =
      (executeNavLambda env { st with counts := setCount st.counts "navlambda" (st.counts "navlambda" + 1) } code opts,
       { st with counts := setCount st.counts "navlambda" (st.counts "navlambda" + 1) }) := rfl

/-- Every branch of the NAVΛ backend reports the `navlambda` counter plus
one as its execution count. -/
theorem executeNavLambda_count (env : Env) (st : ExecState) (code : String) (opts : ExecutionOptions) :
    (executeNavLambda env st code opts).execution_count = st.counts "navlambda" + 1 := by
  unfold executeNavLambda
  cases env.tauriAvailable <;> simp
  cases h : env.navPreview code with
  | none => simp
  | some outcome =>
    obtain ⟨raw, parsed⟩ := outcome
    cases parsed <;> simp

/-- The `navlambda` counter is untouched by a `vnc` call, so every result in
a pure-`vnc` sequence reports the same count. -/
theorem execSeq_vnc_counts (env : Env) :
    ∀ (calls : List (String × ExecutionOptions)) (st : ExecState),
      (execSeq env st "vnc" calls).1.map CellExecutionResult.execution_count
        = calls.map fun _ => st.counts "navlambda" + 1 := by
  intro calls
  induction calls with
  | nil => intro st; rfl
  | cons c cs ih =>
    intro st
    simp only [execSeq, List.map, executeCode_vnc]
    rw [executeNavLambda_count, ih]
    simp [setCount_ne _ _ _ _ (by decide : "navlambda" ≠ "vnc")]

/-! ## Claim theorems -/

/-- C10: the `navlambda` and `vnc` tags share one backend, but the backend
always derives the reported `execution_count` from the `navlambda` counter
plus one, while each call bumps only the counter of the tag it was invoked
with; hence a pure-`vnc` call sequence reports one constant count (the
`navlambda` counter plus one) that never advances, and a `navlambda`-tagged
call reports the pre-call `navlambda` counter plus two (the dispatcher bump
plus the backend's own re-read). -/
theorem c10_vnc_counter_aliasing (env : Env) (st : ExecState) (code : String) (opts : ExecutionOptions) :
    (executeCode env st "vnc" code opts).1.execution_count = st.counts "navlambda" + 1
    ∧ (executeCode env st "vnc" code opts).2.counts "vnc" = st.counts "vnc" + 1
    ∧ (executeCode env st "vnc" code opts).2.counts "navlambda" = st.counts "navlambda"
    ∧ (executeCode env st "navlambda" code opts).1.execution_count = st.counts "navlambda" + 2
    ∧ ∀ calls : List (String × ExecutionOptions),
        (execSeq env st "vnc" calls).1.map CellExecutionResult.execution_count
          = calls.map fun _ => st.counts "navlambda" + 1 := by
  refine ⟨?_, ?_, ?_, ?_, fun calls => execSeq_vnc_counts env calls st⟩
  · rw [executeCode_vnc]
    simp [executeNavLambda_count, setCount_ne _ _ _ _ (by decide : "navlambda" ≠ "vnc")]
  · rw [executeCode_vnc]
    simp [setCount_self]
  · rw [executeCode_vnc]
    simp [setCount_ne _ _ _ _ (by decide : "navlambda" ≠ "vnc")]
  · rw [executeCode_navlambda]
    simp [executeNavLambda_count, setCount_self]

/-- C1: evaluating the dispatcher at the claim's own scenario with no
backend reachable.  Two sequential python calls do report counts 1 and 2
(the python service keeps a consistent private counter), but the first
interleaved rust call reports `execution_count` 2, not 1 as the claim
states, even though the service's own stored rust counter — the value
`getExecutionCount` returns — is 1: the dispatcher bumps the counter and
the rust backend then re-derives `stored + 1` for the report. -/
theorem c1_first_rust_call_reports_two :
    (executeCode env0 initState "python" "print(1)" {}).1.execution_count = 1
    ∧ (executeCode env0 (executeCode env0 initState "python" "print(1)" {}).2
        "python" "print(2)" {}).1.execution_count = 2
    ∧ (executeCode env0 (executeCode env0 (executeCode env0 initState "python" "print(1)" {}).2
        "python" "print(2)" {}).2 "rust" "fn main()" {}).1.execution_count = 2
    ∧ getExecutionCount (executeCode env0 (executeCode env0 (executeCode env0 initState
        "python" "print(1)" {}).2 "python" "print(2)" {}).2 "rust" "fn main()" {}).2 "rust" = 1 := by
  decide

/-- C5 counterexample: executing an unrecognized language tag is not
rejected before dispatch with an `UnsupportedLanguage` kind — the per-call
counter for the unrecognized value is advanced to 1, and the returned
result is an ordinary failed execution whose error kind is
`ExecutionError`. -/
theorem c5_counterexample_ruby_advances_counter :
    (executeCode env0 initState "ruby" "puts 1" {}).1.success = false
    ∧ (executeCode env0 initState "ruby" "puts 1" {}).1.error.map ErrorInfo.ename
        = some "ExecutionError"
    ∧ (executeCode env0 initState "ruby" "puts 1" {}).1.error.map ErrorInfo.evalue
        = some "Unsupported language: ruby"
    ∧ getExecutionCount (executeCode env0 initState "ruby" "puts 1" {}).2 "ruby" = 1 := by
  decide

/-- C5 amended: a language value outside the closed set runs no backend and
is not silently ignored, but it is handled by the dispatcher's catch rather
than rejected before dispatch: the call returns (does not throw) a failed
`CellExecutionResult` whose error kind is `ExecutionError` with message
`Unsupported language: <value>`, and the counter for the unrecognized value
is advanced by exactly one (all other counters and the python backend state
are untouched). -/
theorem c5_unsupported_language_behavior (env : Env) (st : ExecState)
    (language code : String) (opts : ExecutionOptions)
    (h : language ∉ supportedLanguages) :
    (executeCode env st language code opts).1 =
      { success := false,
        outputs := [.error (execErrorInfo ("Unsupported language: " ++ language))],
        execution_count := st.counts language + 1,
        error := some (execErrorInfo ("Unsupported language: " ++ language)) }
    ∧ (executeCode env st language code opts).2.counts language = st.counts language + 1
    ∧ (∀ l, l ≠ language → (executeCode env st language code opts).2.counts l = st.counts l)
    ∧ (executeCode env st language code opts).2.pyCount = st.pyCount
    ∧ (executeCode env st language code opts).2.pyodide = st.pyodide := by
  simp only [supportedLanguages, List.mem_cons, List.mem_singleton] at h
  push_neg at h
  obtain ⟨h1, h2, h3, h4, h5, h6, h7, h8⟩ := h
  have hd : ∀ st' : ExecState, dispatchBackend env st' language code opts
      = .error ("Unsupported language: " ++ language) := by
    intro st'
    simp [dispatchBackend, h1, h2, h3, h4, h5, h6, h7, h8]
  refine ⟨?_, ?_, ?_, ?_, ?_⟩
  · simp [executeCode, hd]
  · simp [executeCode, hd, setCount_self]
  · intro l hl
    simp [executeCode, hd, setCount_ne _ _ _ _ hl]
  · simp [executeCode, hd]
  · simp [executeCode, hd]

/-- C5 witness: the amended behavior at the concrete tag `ruby`. -/
theorem c5_unsupported_language_behavior_witness :
    (executeCode env0 initState "ruby" "x" {}).1 =
      { success := false,
        outputs := [.error (execErrorInfo "Unsupported language: ruby")],
        execution_count := 1,
        error := some (execErrorInfo "Unsupported language: ruby") }
    ∧ (executeCode env0 initState "ruby" "x" {}).2.counts "ruby" = 1 :=
  ⟨(c5_unsupported_language_behavior env0 initState "ruby" "x" {} (by decide)).1,
   (c5_unsupported_language_behavior env0 initState "ruby" "x" {} (by decide)).2.1⟩

theorem executeSQLWeb_success (code : String) (count : Nat) :
    (executeSQLWeb code count).success = true ∧ (executeSQLWeb code count).error = none := by
  unfold executeSQLWeb
  split <;> simp

theorem executeSQL_success (env : Env) (st : ExecState) (code : String) (opts : ExecutionOptions) :
    (executeSQL env st code opts).success = true ∧ (executeSQL env st code opts).error = none := by
  unfold executeSQL
  cases ht : env.tauriAvailable with
  | false => simpa [ht] using executeSQLWeb_success code (st.counts "sql" + 1)
  | true =>
    cases hx : env.invokeSQL code (jsOrNat opts.timeout 30000) with
    | none => simpa [ht, hx] using executeSQLWeb_success code (st.counts "sql" + 1)
    | some result =>
      obtain ⟨succ, rows, err⟩ := result
      cases rows with
      | none => simpa [ht, hx] using executeSQLWeb_success code (st.counts "sql" + 1)
      | some rows =>
        cases succ with
        | false => simpa [ht, hx] using executeSQLWeb_success code (st.counts "sql" + 1)
        | true => simp [ht, hx]

theorem executeRust_success (env : Env) (st : ExecState) (code : String) (opts : ExecutionOptions) :
    (executeRust env st code opts).success = true ∧ (executeRust env st code opts).error = none := by
  unfold executeRust
  cases ht : env.tauriAvailable with
  | false => simp [ht]
  | true =>
    cases hco : jsTruthyBool opts.compileOnly with
    | true =>
      cases hx : env.invokeCompileRust code with
      | none => simp [ht, hco, hx]
      | some result =>
        obtain ⟨succ, out, err⟩ := result
        cases succ <;> simp [ht, hco, hx]
    | false =>
      cases hx : env.invokeRust code (jsOrNat opts.timeout 30000) with
      | none => simp [ht, hco, hx]
      | some result =>
        obtain ⟨succ, out, err⟩ := result
        cases succ <;> simp [ht, hco, hx]

theorem executeR_success (env : Env) (st : ExecState) (code : String) (opts : ExecutionOptions) :
    (executeR env st code opts).success = true ∧ (executeR env st code opts).error = none := by
  unfold executeR
  cases ht : env.tauriAvailable with
  | false => simp [ht]
  | true =>
    cases hx : env.invokeR code (jsOrNat opts.timeout 30000) with
    | none => simp [ht, hx]
    | some result =>
      obtain ⟨succ, out, err⟩ := result
      cases succ <;> simp [ht, hx]

theorem executeNavLambda_success (env : Env) (st : ExecState) (code : String) (opts : ExecutionOptions) :
    (executeNavLambda env st code opts).success = true ∧ (executeNavLambda env st code opts).error = none := by
  unfold executeNavLambda
  cases ht : env.tauriAvailable with
  | false => simp [ht]
  | true =>
    cases hx : env.navPreview code with
    | none => simp [ht, hx]
    | some outcome =>
      obtain ⟨raw, parsed⟩ := outcome
      cases parsed <;> simp [ht, hx]

/-- The two directions of the output-consistency invariant that do hold. -/
def resultWF (r : CellExecutionResult) : Prop :=
  (r.error.isSome = true → r.success = false) ∧ (r.success = false → r.hasErrorOutput = true)

/-- The delegated python engine's replies are passed through unvalidated, so
the invariant can only be proved for environments whose python replies
satisfy it. -/
def pyEnvWF (env : Env) : Prop :=
  ∀ code t r, (env.invokePython code t = some r ∨ env.fetchPython code t = some r) → resultWF r

theorem resultWF_success {r : CellExecutionResult} (hs : r.success = true) (he : r.error = none) :
    resultWF r := by
  constructor
  · intro h; rw [he] at h; simp at h
  · intro h; rw [hs] at h; simp at h

theorem resultWF_exec_count (r : CellExecutionResult) (n : Nat) (h : resultWF r) :
    resultWF { r with execution_count := n } := h

theorem pySimulateExecution_success (code : String) (n : Nat) :
    (pySimulateExecution code n).success = true ∧ (pySimulateExecution code n).error = none :=
  ⟨rfl, rfl⟩

theorem pyodideOkResult_success (n : Nat) (a b : String) (f r : Option String) :
    (pyodideOkResult n a b f r).success = true ∧ (pyodideOkResult n a b f r).error = none :=
  ⟨rfl, rfl⟩

theorem pyodideErrResult_wf (n : Nat) (sc : String) (tb : Option String) (m : String) (js : Option String) :
    resultWF (pyodideErrResult n sc tb m js) := by
  unfold pyodideErrResult resultWF
  refine ⟨fun _ => rfl, fun _ => ?_⟩
  simp [CellExecutionResult.hasErrorOutput, List.any_append, NotebookOutput.isErrorOutput]

theorem pyExecuteCode_wf (env : Env) (pyCount : Nat) (pyodide : Bool) (code : String)
    (opts : ExecutionOptions) (hwf : pyEnvWF env) :
    resultWF (pyExecuteCode env pyCount pyodide code opts).1 := by
  unfold pyExecuteCode
  cases hpy : (pyodide || env.pyodideInit) with
  | true =>
    simp only [hpy]
    cases hr : env.pyRun code with
    | ok a b f r =>
      simp only [hr]
      exact resultWF_success (pyodideOkResult_success _ _ _ _ _).1 (pyodideOkResult_success _ _ _ _ _).2
    | err a tb m js =>
      simp only [hr]
      exact pyodideErrResult_wf _ _ _ _ _
  | false =>
    simp only [hpy]
    cases hta : env.tauriAvailable with
    | true =>
      simp only [hta]
      cases him : env.pyTauriImportOk with
      | true =>
        simp only [him]
        cases hi : env.invokePython code (jsOrNat opts.timeout 30000) with
        | none =>
          simp only [hi]
          exact resultWF_success (pySimulateExecution_success _ _).1 (pySimulateExecution_success _ _).2
        | some r =>
          simp only [hi]
          exact resultWF_exec_count r _ (hwf code _ r (Or.inl hi))
      | false =>
        exact resultWF_success (pySimulateExecution_success _ _).1 (pySimulateExecution_success _ _).2
    | false =>
      cases hi : env.fetchPython code (jsOrNat opts.timeout 30000) with
      | none =>
        simp only [hi]
        exact resultWF_success (pySimulateExecution_success _ _).1 (pySimulateExecution_success _ _).2
      | some r =>
        simp only [hi]
        exact resultWF_exec_count r _ (hwf code _ r (Or.inr hi))

theorem executeJavaScript_wf (env : Env) (st : ExecState) (code lang : String)
    (opts : ExecutionOptions) : resultWF (executeJavaScript env st code lang opts) := by
  unfold executeJavaScript
  cases he : env.evalJS code with
  | ok logs =>
    simp only [he]
    exact resultWF_success rfl rfl
  | error e =>
    simp only [he]
    refine ⟨fun _ => rfl, fun _ => ?_⟩
    simp [CellExecutionResult.hasErrorOutput, NotebookOutput.isErrorOutput]

theorem executeCode_wf (env : Env) (st : ExecState) (lang code : String)
    (opts : ExecutionOptions) (hwf : pyEnvWF env) :
    resultWF (executeCode env st lang code opts).1 := by
  unfold executeCode dispatchBackend
  by_cases h1 : lang = "python"
  · simp [h1]
    exact pyExecuteCode_wf env _ _ code opts hwf
  by_cases h2 : lang = "sql"
  · simp [h1, h2]
    exact resultWF_success (executeSQL_success env _ code opts).1 (executeSQL_success env _ code opts).2
  by_cases h3 : lang = "rust"
  · simp [h1, h2, h3]
    exact resultWF_success (executeRust_success env _ code opts).1 (executeRust_success env _ code opts).2
  by_cases h4 : lang = "r"
  · simp [h1, h2, h3, h4]
    exact resultWF_success (executeR_success env _ code opts).1 (executeR_success env _ code opts).2
  by_cases h5 : lang = "navlambda" ∨ lang = "vnc"
  · simp [h1, h2, h3, h4, h5]
    exact resultWF_success (executeNavLambda_success env _ code opts).1 (executeNavLambda_success env _ code opts).2
  by_cases h6 : lang = "javascript" ∨ lang = "typescript"
  · simp [h1, h2, h3, h4, h5, h6]
    exact executeJavaScript_wf env _ code lang opts
  · simp [h1, h2, h3, h4, h5, h6]
    exact ⟨fun _ => rfl, fun _ => by
      simp [CellExecutionResult.hasErrorOutput, NotebookOutput.isErrorOutput]⟩

/-- C2 counterexample: when `eval` throws, the JavaScript backend returns
`success = false` with an `error`-kind output but without the `error`
field, so the claimed three-way equivalence fails on the code. -/
theorem c2_counterexample_js_failure :
    (executeCode envJsThrow initState "javascript" "boom" {}).1.success = false
    ∧ (executeCode envJsThrow initState "javascript" "boom" {}).1.error = none
    ∧ (executeCode envJsThrow initState "javascript" "boom" {}).1.hasErrorOutput = true := by
  decide

/-- C2 amended: for every result `execute` returns, a present `error` field
implies `success = false`, and `success = false` implies at least one
`error`-kind output — provided the delegated python engine's replies (which
the dispatcher passes through unvalidated) themselves satisfy these.  The
converse `success = false → error present` does not hold: the per-backend
failure handlers (the JavaScript one among them) omit the `error` field. -/
theorem c2_error_invariant_amended (env : Env) (st : ExecState) (lang code : String)
    (opts : ExecutionOptions) (hwf : pyEnvWF env) :
    ((executeCode env st lang code opts).1.error.isSome = true →
      (executeCode env st lang code opts).1.success = false)
    ∧ ((executeCode env st lang code opts).1.success = false →
      (executeCode env st lang code opts).1.hasErrorOutput = true) :=
  executeCode_wf env st lang code opts hwf

/-- C2 witness: the amended invariant instantiated at a concrete SQL call
in the engine-less environment. -/
theorem c2_error_invariant_amended_witness :
    ((executeCode env0 initState "sql" "SELECT 1" {}).1.error.isSome = true →
      (executeCode env0 initState "sql" "SELECT 1" {}).1.success = false)
    ∧ ((executeCode env0 initState "sql" "SELECT 1" {}).1.success = false →
      (executeCode env0 initState "sql" "SELECT 1" {}).1.hasErrorOutput = true) :=
  c2_error_invariant_amended env0 initState "sql" "SELECT 1" {} (by
    intro code t r h
    rcases h with h | h <;> simp [env0] at h)

/-- C4: `execute` is total (it is a plain function into
`CellExecutionResult × ExecState`, so no backend failure escapes it), every
error thrown at the dispatch layer is converted by the catch into a
well-formed failed result carrying the `ExecutionError` triple in both the
outputs list and the `error` field, and for every supported language the
selected backend never throws at all — each backend handles its own
failures internally, so the catch is the single normalization point. -/
theorem c4_dispatcher_normalizes (env : Env) (st : ExecState) (lang code : String)
    (opts : ExecutionOptions) :
    (∀ e, dispatchBackend env { st with counts := setCount st.counts lang (st.counts lang + 1) }
        lang code opts = Except.error e →
      executeCode env st lang code opts =
        ({ success := false, outputs := [.error (execErrorInfo e)],
           execution_count := st.counts lang + 1, error := some (execErrorInfo e) },
         { st with counts := setCount st.counts lang (st.counts lang + 1) }))
    ∧ (lang ∈ supportedLanguages →
        ∃ rs, dispatchBackend env { st with counts := setCount st.counts lang (st.counts lang + 1) }
          lang code opts = Except.ok rs) := by
  constructor
  · intro e he
    unfold executeCode
    simp only [he]
  · intro hmem
    simp only [supportedLanguages, List.mem_cons, List.not_mem_nil, or_false] at hmem
    rcases hmem with h | h | h | h | h | h | h | h <;> subst h <;> exact ⟨_, rfl⟩

/-- C4 witness: the catch conversion at a concrete unrecognized tag, and a
concrete supported dispatch that returns rather than throws. -/
theorem c4_dispatcher_normalizes_witness :
    executeCode env0 initState "cobol" "x" {} =
      ({ success := false, outputs := [.error (execErrorInfo "Unsupported language: cobol")],
         execution_count := initState.counts "cobol" + 1,
         error := some (execErrorInfo "Unsupported language: cobol") },
       { initState with counts := setCount initState.counts "cobol" (initState.counts "cobol" + 1) })
    ∧ ∃ rs, dispatchBackend env0
        { initState with counts := setCount initState.counts "sql" (initState.counts "sql" + 1) }
        "sql" "SELECT 1" {} = Except.ok rs :=
  ⟨(c4_dispatcher_normalizes env0 initState "cobol" "x" {}).1 "Unsupported language: cobol" rfl,
   (c4_dispatcher_normalizes env0 initState "sql" "SELECT 1" {}).2 (by decide)⟩

/-- C6: `parse` fails with the `MalformedDocument` error (message
`Invalid notebook format: missing cells array`, wrapped by the outer catch)
whenever the top-level `cells` field is absent or not an array, and fails
with the `UnsupportedVersion` error (`Unsupported notebook format version`)
whenever `cells` passes and the numeric `nbformat` is below 4. -/
theorem c6_parse_validation (nb : RawNotebook) :
    ((∀ cs, nb.cells ≠ CellsField.present cs) →
      parseNotebook nb = .error "Failed to parse notebook: Invalid notebook format: missing cells array")
    ∧ (∀ cs n, nb.cells = CellsField.present cs → nb.nbformat = some n → n < 4 →
      parseNotebook nb = .error "Failed to parse notebook: Unsupported notebook format version") := by
  constructor
  · intro h
    unfold parseNotebook
    cases hc : nb.cells with
    | present cs => exact absurd hc (h cs)
    | absent => rfl
    | notArray => rfl
  · intro cs n hc hn hlt
    obtain ⟨cf, md, nbf, nbm⟩ := nb
    simp only at hc hn
    subst hc
    subst hn
    simp [parseNotebook, hlt]

/-- C6 witness: a document missing `cells`, and a document with
`nbformat = 3`. -/
theorem c6_parse_validation_witness :
    parseNotebook { cells := .absent, nbformat := some 4 }
      = .error "Failed to parse notebook: Invalid notebook format: missing cells array"
    ∧ parseNotebook { cells := .present [{ cell_type := "code" }], nbformat := some 3 }
      = .error "Failed to parse notebook: Unsupported notebook format version" :=
  ⟨(c6_parse_validation _).1 (fun cs h => CellsField.noConfusion h),
   (c6_parse_validation _).2 [{ cell_type := "code" }] 3 rfl rfl (by decide)⟩

/-- C9: a source persisted as a single string is accepted unchanged, a
source persisted as a fragment list is concatenated with no separator (its
character data is exactly the flattened fragment data and its length is the
sum of the fragment lengths), a concrete 3-line array becomes one
concatenated string, and `parse` applies exactly this normalization to
every cell of an accepted document. -/
theorem c9_source_normalization :
    (∀ s : String, normalizeSource (Sum.inl s) = s)
    ∧ (∀ fragments : List String,
        (normalizeSource (Sum.inr fragments)).data = (fragments.map String.data).flatten
        ∧ (normalizeSource (Sum.inr fragments)).length = (fragments.map String.length).sum)
    ∧ normalizeSource (Sum.inr ["x = 1\n", "y = 2\n", "print(x)"]) = "x = 1\ny = 2\nprint(x)"
    ∧ (∀ (nb : RawNotebook) (cells : List NbCell) (n : Int),
        nb.cells = CellsField.present cells → nb.nbformat = some n → ¬(n = 0 ∨ n < 4) →
        ∃ parsed, parseNotebook nb = Except.ok parsed
          ∧ parsed.cells.map NbCell.source
            = cells.map fun c => some (Sum.inl (normalizeRawSource c.source))) := by
  refine ⟨?_, ?_, by decide, ?_⟩
  · intro s
    by_cases hs : s = "" <;> simp [normalizeSource, jsOrS, hs]
  · intro fragments
    refine ⟨rfl, ?_⟩
    show ((fragments.map String.data).flatten).length = (fragments.map String.length).sum
    rw [List.length_flatten, List.map_map]
    rfl
  · intro nb cells n hc hn hv
    obtain ⟨cf, md, nbf, nbm⟩ := nb
    simp only at hc hn
    subst hc
    subst hn
    simp only [parseNotebook, if_neg hv]
    exact ⟨_, rfl, by rw [List.map_map]; rfl⟩

def c9cell : NbCell :=
  { cell_type := "code", source := some (Sum.inr ["x = 1\n", "y = 2\n", "print(x)"]) }

def c9doc : RawNotebook := { cells := .present [c9cell], nbformat := some 4 }

/-- C9 witness: parsing a concrete document whose cell source is a 3-line
fragment array. -/
theorem c9_source_normalization_witness :
    ∃ parsed, parseNotebook c9doc = Except.ok parsed
      ∧ parsed.cells.map NbCell.source
        = [c9cell].map fun c => some (Sum.inl (normalizeRawSource c.source)) :=
  c9_source_normalization.2.2.2 c9doc [c9cell] 4 rfl rfl (by decide)

/-- C7 counterexample: an output carrying both an `image/png` entry and a
`text/html` entry renders as html, not as the image, when the png value is
the empty string — JS truthiness treats the entry as absent. -/
theorem c7_counterexample_empty_png :
    formatOutput (NotebookOutput.displayData { imagePng := some "", textHtml := some (.str "<b>x</b>") })
      = { type := FormattedType.html, content := "<b>x</b>", mimeType := none }
    ∧ (formatOutput (NotebookOutput.displayData { imagePng := some "", textHtml := some (.str "<b>x</b>") })).type
      ≠ FormattedType.image := by
  decide

/-- C7 amended: the rendering-selection function is total and
deterministic (a plain function), picks exactly one representation in the
fixed png, jpeg, svg, html, plain-text preference order, renders the empty
string when no representation is present — with presence meaning JS-truthy:
an entry whose value is the empty string is skipped.  In particular an
output with both `image/png` and `text/html` selects the image whenever the
png value is nonempty. -/
theorem c7_rendering_selection_amended (d : OutputData) (ec : Option Nat) (s : String) :
    (d.imagePng = some s → s ≠ "" →
      formatOutput (.executeResult ec d) = { type := .image, content := s, mimeType := some "image/png" }
      ∧ formatOutput (.displayData d) = { type := .image, content := s, mimeType := some "image/png" })
    ∧ (jsTruthyOpt d.imagePng = none → d.imageJpeg = some s → s ≠ "" →
      formatOutput (.displayData d) = { type := .image, content := s, mimeType := some "image/jpeg" })
    ∧ (jsTruthyOpt d.imagePng = none → jsTruthyOpt d.imageJpeg = none → jsTruthySA d.imageSvg = some s →
      formatOutput (.displayData d) = { type := .image, content := s, mimeType := some "image/svg+xml" })
    ∧ (jsTruthyOpt d.imagePng = none → jsTruthyOpt d.imageJpeg = none → jsTruthySA d.imageSvg = none →
      jsTruthySA d.textHtml = some s →
      formatOutput (.displayData d) = { type := .html, content := s, mimeType := none })
    ∧ (jsTruthyOpt d.imagePng = none → jsTruthyOpt d.imageJpeg = none → jsTruthySA d.imageSvg = none →
      jsTruthySA d.textHtml = none → jsTruthySA d.textPlain = some s →
      formatOutput (.displayData d) = { type := .text, content := s, mimeType := none })
    ∧ (jsTruthyOpt d.imagePng = none → jsTruthyOpt d.imageJpeg = none → jsTruthySA d.imageSvg = none →
      jsTruthySA d.textHtml = none → jsTruthySA d.textPlain = none →
      formatOutput (.displayData d) = { type := .text, content := "", mimeType := none }
      ∧ formatOutput (.executeResult ec d) = { type := .text, content := "", mimeType := none }) := by
  refine ⟨?_, ?_, ?_, ?_, ?_, ?_⟩
  · intro hp hs
    have h1 : jsTruthyOpt d.imagePng = some s := by simp [jsTruthyOpt, hp, hs]
    constructor <;> simp [formatOutput, formatData, h1]
  · intro h1 hj hs
    have h2 : jsTruthyOpt d.imageJpeg = some s := by simp [jsTruthyOpt, hj, hs]
    simp [formatOutput, formatData, h1, h2]
  · intro h1 h2 h3
    simp [formatOutput, formatData, h1, h2, h3]
  · intro h1 h2 h3 h4
    simp [formatOutput, formatData, h1, h2, h3, h4]
  · intro h1 h2 h3 h4 h5
    simp [formatOutput, formatData, h1, h2, h3, h4, h5]
  · intro h1 h2 h3 h4 h5
    constructor <;> simp [formatOutput, formatData, h1, h2, h3, h4, h5]

/-- C7 witness: a concrete output carrying nonempty png data and html
selects the image. -/
theorem c7_rendering_selection_amended_witness :
    formatOutput (NotebookOutput.displayData
        { imagePng := some "iVBORw0KGgo=", textHtml := some (.str "<b>rich</b>") })
      = { type := FormattedType.image, content := "iVBORw0KGgo=", mimeType := some "image/png" } :=
  ((c7_rendering_selection_amended
      { imagePng := some "iVBORw0KGgo=", textHtml := some (.str "<b>rich</b>") }
      none "iVBORw0KGgo=").1 rfl (by decide)).2

theorem append3_ne_empty (a b c : String) (ha : a.data ≠ []) : a ++ b ++ c ≠ "" := by
  intro h
  have hd := congrArg String.data h
  simp [String.data_append] at hd
  exact ha hd.1

def rows150 : List SqlRow := List.replicate 150 [("id", "1")]

set_option maxRecDepth 100000 in
/-- C8: the tabular formatter renders the no-rows message on an empty
result set (both plain text and HTML), caps the displayed data rows at 100
(`min 100 rows`), appends the `N more rows` trailer exactly when the input
has more than 100 rows with `N = rows - 100`, and on a concrete uniform
150-row input produces 103 newline-separated lines — header, separator,
100 data rows — ending in the `... (50 more rows)` trailer. -/
theorem c8_table_truncation :
    formatSQLTable [] = "No rows returned"
    ∧ formatSQLTableHTML [] = "<div>No rows returned</div>"
    ∧ (∀ rows : List SqlRow, rows ≠ [] →
        formatSQLTable rows
          = String.intercalate "\n" (sqlHeaderLine rows :: sqlSeparatorLine rows :: sqlDataLines rows)
            ++ sqlTrailer rows
        ∧ (sqlDataLines rows).length = min 100 rows.length
        ∧ (sqlTrailer rows = "" ↔ rows.length ≤ 100)
        ∧ (100 < rows.length →
            sqlTrailer rows = "\n... (" ++ toString (rows.length - 100) ++ " more rows)"))
    ∧ (splitCh '\n' (formatSQLTable rows150).data).length = 103
    ∧ ((splitCh '\n' (formatSQLTable rows150).data).map fun l => (⟨l⟩ : String)).getLast?
        = some "... (50 more rows)" := by
  refine ⟨rfl, rfl, ?_, by decide, by decide⟩
  intro rows hrows
  refine ⟨?_, ?_, ?_, ?_⟩
  · unfold formatSQLTable
    rw [if_neg (by simpa using hrows)]
  · unfold sqlDataLines
    rw [List.length_map, List.length_take]
  · unfold sqlTrailer
    by_cases h : rows.length > 100
    · rw [if_pos h]
      constructor
      · intro he
        exact absurd he (append3_ne_empty _ _ _ (by decide))
      · intro hle
        omega
    · rw [if_neg h]
      simp
      omega
  · intro h
    unfold sqlTrailer
    rw [if_pos h]

theorem string_mk_data (s : String) : String.mk s.data = s := by
  cases s
  rfl

theorem splitCh_not_mem (c : Char) (l : List Char) (h : c ∉ l) : splitCh c l = [l] := by
  induction l with
  | nil => rfl
  | cons x xs ih =>
    have hx : ¬(x = c) := fun he => h (he ▸ List.mem_cons_self x xs)
    have hxs : c ∉ xs := fun hm => h (List.mem_cons_of_mem _ hm)
    simp [splitCh, ih hxs, hx]

theorem jsJoin_split_no_nl (s : String) (h : '\n' ∉ s.data) : jsJoinEmpty (jsSplitNl s) = s := by
  unfold jsSplitNl
  rw [splitCh_not_mem _ _ h]
  simp [jsJoinEmpty, string_mk_data]

theorem internalCellOf_nbCellOf (nb : JupyterNotebook) (i : Nat) (c : InternalCell)
    (hid : c.id ≠ "") (hnl : '\n' ∉ c.content.data)
    (hlang : c.metadata.language = some c.language) (hlne : c.language ≠ "")
    (hmd : c.type = CellKind.markdown → c.executionCount = none ∧ c.outputs = []) :
    internalCellOf nb (i, nbCellOf c) = c := by
  obtain ⟨cid, ctype, clang, ccontent, cec, couts, cmeta⟩ := c
  simp only at hid hnl hlang hlne
  cases ctype with
  | code =>
    simp [internalCellOf, nbCellOf, detectLanguage, jsOrS, hid, jsTruthyOpt, hlang, hlne,
      normalizeRawSource, jsJoin_split_no_nl _ hnl]
  | markdown =>
    obtain ⟨hec, hout⟩ := hmd rfl
    subst hec
    subst hout
    simp [internalCellOf, nbCellOf, detectLanguage, jsOrS, hid, jsTruthyOpt, hlang, hlne,
      normalizeRawSource, jsJoin_split_no_nl _ hnl]

theorem roundtrip_aux (nb : JupyterNotebook) (cells : List InternalCell) :
    ∀ n : Nat,
      (∀ c ∈ cells, c.id ≠ "" ∧ '\n' ∉ c.content.data ∧ c.metadata.language = some c.language
        ∧ c.language ≠ "" ∧ (c.type = CellKind.markdown → c.executionCount = none ∧ c.outputs = [])) →
      (List.enumFrom n (cells.map nbCellOf)).map (internalCellOf nb) = cells := by
  induction cells with
  | nil => intro n h; rfl
  | cons c cs ih =>
    intro n h
    have hc := h c (List.mem_cons_self c cs)
    simp only [List.map_cons, List.enumFrom]
    rw [internalCellOf_nbCellOf nb n c hc.1 hc.2.1 hc.2.2.1 hc.2.2.2.1 hc.2.2.2.2,
      ih (n + 1) fun x hx => h x (List.mem_cons_of_mem _ hx)]

/-- C3 amended: `toCells(fromCells(cells)) = cells` holds for every cell
list in which every cell has a nonempty id, a content with no newline
characters, a metadata language tag equal to its (nonempty) language, and —
for markdown cells — no execution count and no outputs.  These conditions
are sufficient, not necessary (a code cell with no metadata tag whose
language happens to be `python` also round-trips, via the synthesized
default kernelspec).  Outside such lists the round trip is lossy:
`fromCells` persists the source as `split('\n')` and `toCells` re-joins
the fragments with no separator, so newlines are dropped, and the language
is recomputed from metadata (falling back to the synthesized python
kernelspec) rather than stored. -/
theorem c3_roundtrip_amended (cells : List InternalCell)
    (h : ∀ c ∈ cells, c.id ≠ "" ∧ '\n' ∉ c.content.data ∧ c.metadata.language = some c.language
        ∧ c.language ≠ "" ∧ (c.type = CellKind.markdown → c.executionCount = none ∧ c.outputs = [])) :
    notebookToCells (cellsToNotebook cells none) = cells :=
  roundtrip_aux (cellsToNotebook cells none) cells 0 h

def cellML : InternalCell :=
  { id := "cell-1", type := .code, language := "python", content := "line1\nline2",
    executionCount := some 1, outputs := [], metadata := { language := some "python" } }

/-- C3 counterexample: a single code cell whose source spans two lines
does not survive the round trip — the newline is lost, so the claimed law
fails for multi-line sources. -/
theorem c3_counterexample_multiline :
    notebookToCells (cellsToNotebook [cellML] none) ≠ [cellML]
    ∧ (notebookToCells (cellsToNotebook [cellML] none)).map InternalCell.content = ["line1line2"] := by
  decide

def cellOK : InternalCell :=
  { id := "c1", type := .code, language := "rust", content := "fn main()",
    executionCount := some 2, outputs := [.stream "stdout" (.str "ok")],
    metadata := { language := some "rust" } }

def cellMD : InternalCell :=
  { id := "c2", type := .markdown, language := "markdown", content := "# Title",
    executionCount := none, outputs := [], metadata := { language := some "markdown" } }

/-- C3 witness: the amended round trip on a concrete two-cell list (one
code cell, one markdown cell) satisfying the hypotheses. -/
theorem c3_roundtrip_amended_witness :
    notebookToCells (cellsToNotebook [cellOK, cellMD] none) = [cellOK, cellMD] :=
  c3_roundtrip_amended [cellOK, cellMD] (by decide)

/-- C8 witness: the nonempty-case properties instantiated at a concrete
one-row input. -/
theorem c8_table_truncation_witness :
    formatSQLTable [[("id", "1")]]
      = String.intercalate "\n"
          (sqlHeaderLine [[("id", "1")]] :: sqlSeparatorLine [[("id", "1")]] :: sqlDataLines [[("id", "1")]])
        ++ sqlTrailer [[("id", "1")]]
    ∧ (sqlDataLines [[("id", "1")]]).length = min 100 ([[("id", "1")]] : List SqlRow).length
    ∧ (sqlTrailer [[("id", "1")]] = "" ↔ ([[("id", "1")]] : List SqlRow).length ≤ 100) :=
  ⟨(c8_table_truncation.2.2.1 [[("id", "1")]] (by decide)).1,
   (c8_table_truncation.2.2.1 [[("id", "1")]] (by decide)).2.1,
   (c8_table_truncation.2.2.1 [[("id", "1")]] (by decide)).2.2.1⟩
